import Mathlib

/-!
# Verification of the quiz-generation proxy and offline asset cache

Shallow embedding of the two components of the repository:

* `src/api/generate-quiz.js` (handler `handlerMain`) and
  `src/unnamed/part_000` (handler `handlerAlt`): the serverless quiz
  proxy, a single linear request/transform/response pipeline.
* `src/public/sw.js`: the service-worker asset cache (`install`,
  `fetch`, `activate` listeners).

JavaScript values flowing through the handler are modelled by the
inductive type `Json`; `undefined` is modelled by `Option Json`'s
`none`.  The platform primitive `JSON.parse` is a parameter
`parse : String → Option Json` of the handlers (`none` models a thrown
`SyntaxError`); the outbound network call is modelled by passing the
upstream response as an argument and recording in the result whether
the pipeline reached the point where the call is made
(`upstreamCalled`).
-/

/-- A JavaScript/JSON value (the shapes the handler manipulates). -/
inductive Json where
  | null : Json
  | bool : Bool → Json
  | num : Int → Json
  | str : String → Json
  | arr : List Json → Json
  | obj : List (String × Json) → Json
deriving Repr, BEq

/-- JavaScript truthiness of a value (`null`, `false`, `0`, `""` are
falsy; arrays and objects are always truthy). -/
def jsTruthy : Json → Bool
  | .null => false
  | .bool b => b
  | .num n => n != 0
  | .str s => s != ""
  | .arr _ => true
  | .obj _ => true

/-- Truthiness of a possibly-`undefined` value (`undefined` is falsy). -/
def optTruthy : Option Json → Bool
  | none => false
  | some j => jsTruthy j

/-- `o.k`: plain (non-optional-chaining) member access.  Throws a
`TypeError` (`Except.error`) on `undefined` or `null`; yields the field
on objects and `undefined` on other values. -/
def jsDot : Option Json → String → Except Unit (Option Json)
  | none, _ => .error ()
  | some .null, _ => .error ()
  | some (.obj fs), k => .ok (fs.lookup k)
  | some _, _ => .ok none

/-- `o?.k`: optional-chaining member access (short-circuits to
`undefined` on `null`/`undefined`, never throws). -/
def optChain : Option Json → String → Option Json
  | none, _ => none
  | some .null, _ => none
  | some (.obj fs), k => fs.lookup k
  | some _, _ => none

/-- `o.length > 0` evaluated as in JavaScript on a value already known
to be truthy: arrays and strings have a numeric `length`; on any other
value `.length` is `undefined` and the comparison is false. -/
def jsLenPos : Option Json → Bool
  | some (.arr l) => decide (0 < l.length)
  | some (.str s) => decide (0 < s.length)
  | _ => false

/-- `o[0]`: index access on a value known not to be `null`/`undefined`
(arrays by position, strings by character, objects by the key "0"). -/
def jsIndex0 : Option Json → Option Json
  | some (.arr (x :: _)) => some x
  | some (.str s) => if s.isEmpty then none else some (.str (s.take 1))
  | some (.obj fs) => fs.lookup "0"
  | _ => none

/-- `o?.[0]`: optional-chaining index access (additionally yields
`undefined` on `null`/`undefined`). -/
def optChainIndex0 : Option Json → Option Json
  | none => none
  | some .null => none
  | o => jsIndex0 o

/-- How one array element appears in `Array.prototype.join`: `null`
elements render as "", every other element by its rendering (second
argument). -/
def jsElem : Json → String → String
  | .null, _ => ""
  | _, s => s

/-- The platform's `String(v)` coercion, for the value shapes used here
(`JSON.parse` coerces a non-string argument to a string first).  Array
elements are joined with "," as `Array.prototype.join` does. -/
def jsToString : Json → String
  | .null => "null"
  | .bool true => "true"
  | .bool false => "false"
  | .num n => toString n
  | .str s => s
  | .arr l =>
      String.intercalate "," (l.attach.map fun x => jsElem x.1 (jsToString x.1))
  | .obj _ => "[object Object]"
decreasing_by
  have := List.sizeOf_lt_of_mem x.2
  simp only [Json.arr.sizeOf_spec]
  omega

/-- `String(v)` on a possibly-`undefined` value. -/
def jsToStringU : Option Json → String
  | none => "undefined"
  | some v => jsToString v

/-- `x || fallback` as used for the upstream error message: the value
itself when truthy, else the fallback string. -/
def jsOr (m : Option Json) (fallback : String) : Json :=
  match m with
  | some v => if jsTruthy v then v else .str fallback
  | none => .str fallback

/-- `res.json(\x7b error: msg \x7d)`: an error body. -/
def errObj (msg : String) : Json := .obj [("error", .str msg)]

/-! ## The quiz-proxy handler -/

/-- The inbound request: `req.method` and the two fields the handler
destructures out of `req.body` (`none` = field absent / `undefined`). -/
structure Req where
  method : String
  topic : Option Json
  numQuestions : Option Json
deriving Repr

/-- `process.env`: the `GEMINI_API_KEY` variable (`none` = unset). -/
structure Env where
  geminiApiKey : Option String
deriving Repr

/-- `!GEMINI_API_KEY`: an env var is falsy when unset or empty. -/
def keyTruthy : Option String → Bool
  | none => false
  | some s => s != ""

/-- The upstream (Gemini) response as the handler observes it:
`geminiResponse.status`, and the result of `await geminiResponse.json()`
(`none` models the body failing to parse, i.e. `.json()` rejecting). -/
structure Upstream where
  status : Nat
  jsonBody : Option Json
deriving Repr

/-- `geminiResponse.ok`: status in the range 200..299. -/
def upstreamOk (status : Nat) : Bool := 200 ≤ status && status ≤ 299

/-- What the handler produced: the response status and JSON body, and
whether the pipeline reached the outbound `fetch` to the upstream API. -/
structure HResult where
  status : Nat
  body : Json
  upstreamCalled : Bool
deriving Repr

/-- Outcome of the success-path content extraction of
`src/api/generate-quiz.js` (lines 79-82): the guard
`geminiResult.candidates && geminiResult.candidates.length > 0 &&
geminiResult.candidates[0].content && geminiResult.candidates[0].content.parts &&
geminiResult.candidates[0].content.parts.length > 0`
either throws a `TypeError` (`thrown`), fails (`noContent`, the else
branch), or passes and yields `candidates[0].content.parts[0].text`
(`text`, possibly `undefined`). -/
inductive Extract1 where
  | thrown : Extract1
  | noContent : Extract1
  | text : Option Json → Extract1
deriving Repr

/-- The guard and extraction of `src/api/generate-quiz.js` lines 79-82,
evaluated with JavaScript member-access and truthiness semantics. -/
def extract1 (result : Json) : Extract1 :=
  match jsDot (some result) "candidates" with
  | .error _ => .thrown
  | .ok cands =>
    if !optTruthy cands then .noContent
    else if !jsLenPos cands then .noContent
    else
      match jsDot (jsIndex0 cands) "content" with
      | .error _ => .thrown
      | .ok content =>
        if !optTruthy content then .noContent
        else
          match jsDot content "parts" with
          | .error _ => .thrown
          | .ok parts =>
            if !optTruthy parts then .noContent
            else if !jsLenPos parts then .noContent
            else
              match jsDot (jsIndex0 parts) "text" with
              | .error _ => .thrown
              | .ok t => .text t

/-- `geminiResult.candidates?.[0]?.content?.parts?.[0]?.text` of
`src/unnamed/part_000` line 77.  The first access `.candidates` is not
optional-chained, so it throws on a `null` result; the rest
short-circuits to `undefined`. -/
def extractChain (result : Json) : Except Unit (Option Json) :=
  match jsDot (some result) "candidates" with
  | .error _ => .error ()
  | .ok cands =>
      .ok (optChain (optChainIndex0 (optChain (optChain (optChainIndex0 cands)
            "content") "parts")) "text")

/-- `geminiResult.error?.message || fallback` (both variants): the
`.error` access throws on a `null` result; otherwise optional chaining
yields the message or `undefined`, and `||` substitutes the fallback
for a falsy message. -/
def upstreamErrBody (result : Json) (fallback : String) : Except Unit Json :=
  match jsDot (some result) "error" with
  | .error _ => .error ()
  | .ok e => .ok (.obj [("error", jsOr (optChain e "message") fallback)])

/-- `res.status(500).json(...)` of the `catch` blocks (identical text
in both variants). -/
def internalErrMsg : String := "Internal server error during quiz generation."

/-- The handler of `src/api/generate-quiz.js` (`module.exports`),
line by line.  `parse` stands for the platform's `JSON.parse`
(`none` = `SyntaxError` thrown, caught by the surrounding `try`). -/
def handlerMain (parse : String → Option Json) (env : Env) (req : Req)
    (up : Upstream) : HResult :=
  -- line 7: if (req.method !== 'POST')
  if req.method ≠ "POST" then
    ⟨405, errObj "Method Not Allowed. Only POST requests are accepted.", false⟩
  -- line 16: if (!GEMINI_API_KEY)
  else if !keyTruthy env.geminiApiKey then
    ⟨500, errObj "Server configuration error: API key missing. Please ensure GEMINI_API_KEY is set in Vercel project settings.", false⟩
  -- line 26: if (!topic || !numQuestions)
  else if !(optTruthy req.topic && optTruthy req.numQuestions) then
    ⟨400, errObj "Topic and number of questions are required in the request body.", false⟩
  else
    -- line 67: the outbound fetch happens; line 74: await geminiResponse.json()
    match up.jsonBody with
    | none => ⟨500, errObj internalErrMsg, true⟩
    | some geminiResult =>
      -- line 77: if (geminiResponse.ok)
      if upstreamOk up.status then
        match extract1 geminiResult with
        | .thrown => ⟨500, errObj internalErrMsg, true⟩
        | .noContent =>
            -- line 89
            ⟨500, errObj "No valid content found in Gemini API response or unexpected structure.", true⟩
        | .text t =>
            -- line 85: res.status(200).json(JSON.parse(jsonString))
            match parse (jsToStringU t) with
            | some v => ⟨200, v, true⟩
            | none => ⟨500, errObj internalErrMsg, true⟩
      else
        -- lines 93-94: forward status and geminiResult.error?.message
        match upstreamErrBody geminiResult "Unknown Gemini API error" with
        | .error _ => ⟨500, errObj internalErrMsg, true⟩
        | .ok body => ⟨up.status, body, true⟩

/-- The handler of `src/unnamed/part_000` (`module.exports`), line by
line.  It differs from `handlerMain` in the extraction (full optional
chaining), in treating a falsy extracted text as a thrown `Error`
(caught by the catch-all), and in its message texts. -/
def handlerAlt (parse : String → Option Json) (env : Env) (req : Req)
    (up : Upstream) : HResult :=
  -- line 8: if (req.method !== 'POST')
  if req.method ≠ "POST" then
    ⟨405, errObj "Method Not Allowed. Only POST requests are accepted.", false⟩
  -- line 14: if (!GEMINI_API_KEY)
  else if !keyTruthy env.geminiApiKey then
    ⟨500, errObj "Server configuration error: API key missing.", false⟩
  -- line 25: if (!topic || !numQuestions)
  else if !(optTruthy req.topic && optTruthy req.numQuestions) then
    ⟨400, errObj "Topic and number of questions are required.", false⟩
  else
    -- line 67: the outbound fetch; line 73: await geminiResponse.json()
    match up.jsonBody with
    | none => ⟨500, errObj internalErrMsg, true⟩
    | some geminiResult =>
      -- line 76: if (geminiResponse.ok)
      if upstreamOk up.status then
        match extractChain geminiResult with
        | .error _ => ⟨500, errObj internalErrMsg, true⟩
        | .ok content =>
            -- line 79: if (content) ... else throw new Error(...)
            if optTruthy content then
              match parse (jsToStringU content) with
              | some v => ⟨200, v, true⟩
              | none => ⟨500, errObj internalErrMsg, true⟩
            else
              -- line 83: the thrown Error lands in the catch block
              ⟨500, errObj internalErrMsg, true⟩
      else
        -- lines 87-88
        match upstreamErrBody geminiResult "Gemini API Error" with
        | .error _ => ⟨500, errObj internalErrMsg, true⟩
        | .ok body => ⟨up.status, body, true⟩

/-! ## The offline asset cache (`src/public/sw.js`) -/

/-- `const CACHE_NAME = 'quiz-generator-v1'` (sw.js line 2). -/
def CACHE_NAME : String := "quiz-generator-v1"

/-- A `Response` as the fetch listener inspects it: `status`, `type`
and an opaque body.  `clone()` yields an equal value. -/
structure SwResponse where
  status : Nat
  rtype : String
  body : String
deriving Repr, DecidableEq

/-- One named cache: request-identity (URL) / response pairs, in
insertion order; `cache.match` returns the first match. -/
abbrev SwCache := List (String × SwResponse)

/-- The whole `CacheStorage`: named stores in creation order
(`caches.match` consults them in this order). -/
abbrev CacheStorage := List (String × SwCache)

/-- `cache.match(request)` on one store. -/
def cacheMatch (c : SwCache) (url : String) : Option SwResponse :=
  c.lookup url

/-- `caches.match(request)`: searches every store, in creation order,
and returns the first match. -/
def cachesMatch (s : CacheStorage) (url : String) : Option SwResponse :=
  match s with
  | [] => none
  | (_, c) :: rest =>
      match cacheMatch c url with
      | some r => some r
      | none => cachesMatch rest url

/-- `cache.put(request, response)`: removes entries matching the
request and appends the new pair. -/
def cachePut (c : SwCache) (url : String) (r : SwResponse) : SwCache :=
  c.filter (fun p => p.1 ≠ url) ++ [(url, r)]

/-- Apply `f` to every store with the given name (names are unique in a
real `CacheStorage`; applying to all matches is the identity on the
rest). -/
def updateStore : CacheStorage → String → (SwCache → SwCache) → CacheStorage
  | [], _, _ => []
  | (k, c) :: rest, name, f =>
      if k = name then (k, f c) :: updateStore rest name f
      else (k, c) :: updateStore rest name f

/-- `caches.open(name)` followed by `cache.put(...)`: updates the named
store, creating it at the end of the storage if absent. -/
def storagePut (s : CacheStorage) (name url : String) (r : SwResponse) :
    CacheStorage :=
  if (s.lookup name).isSome then
    updateStore s name (fun c => cachePut c url r)
  else
    s ++ [(name, cachePut [] url r)]

/-- The validity check of sw.js line 56:
`!(!response || response.status !== 200 || response.type !== 'basic')`
(the response itself is never falsy here). -/
def swValid (r : SwResponse) : Bool :=
  r.status == 200 && r.rtype == "basic"

/-- What one run of the fetch listener produced: the response handed to
`event.respondWith`, the cache storage afterwards, and whether the
network `fetch(event.request)` was performed. -/
structure FetchResult where
  resp : SwResponse
  storage : CacheStorage
  networkFetched : Bool
deriving Repr

/-- The `fetch` event listener of sw.js lines 44-80: `caches.match`
first; on a hit return the cached response; on a miss fetch the network
(`net` is the response that fetch resolves with), return it, and cache
a clone under the request when it is valid. -/
def handleFetch (s : CacheStorage) (url : String) (net : SwResponse) :
    FetchResult :=
  match cachesMatch s url with
  | some r => ⟨r, s, false⟩
  | none =>
      if swValid net then
        ⟨net, storagePut s CACHE_NAME url net, true⟩
      else
        ⟨net, s, true⟩

/-- The `activate` event listener of sw.js lines 83-98: every store
whose name is not in `cacheWhitelist = [CACHE_NAME]` is deleted. -/
def handleActivate (s : CacheStorage) : CacheStorage :=
  s.filter (fun p => [CACHE_NAME].contains p.1)

/-! ## The sanitizing handler variant (not under `src/`) -/

/-- ASCII whitespace, as trimmed from generated text. -/
def isWs (c : Char) : Bool :=
  c == ' ' || c == '\n' || c == '\t' || c == '\r'

/-- Trim leading and trailing whitespace from a character list. -/
def trimList (l : List Char) : List Char :=
  ((l.dropWhile isWs).reverse.dropWhile isWs).reverse

/-- Whether the first list begins with the second. -/
def listStartsWith : List Char → List Char → Bool
  | _, [] => true
  | [], _ :: _ => false
  | a :: as, b :: bs => a == b && listStartsWith as bs

/-- Modelled from the spec: `stripFences` — the markdown code-fence
sanitization of the repository's sanitizing handler variant, which is
not among the files under `src/` (spec section 9 records that the four
source variants disagree on whether fence sanitization is applied;
neither file present here applies it).  Following section 4.1: "strips
any markdown code-fence wrapping defensively" — after trimming, a
leading three-backtick fence (with optional `json` tag) and a trailing
three-backtick fence are removed and the remainder trimmed again. -/
def stripFences (s : String) : String :=
  let t := trimList s.data
  let t := if listStartsWith t ("```json").data then t.drop 7
           else if listStartsWith t ("```").data then t.drop 3
           else t
  let t := if listStartsWith t.reverse ("```").data.reverse then
             t.take (t.length - 3)
           else t
  ⟨trimList t⟩

/-- Modelled from the spec: the sanitizing handler variant (spec
section 4.1), absent from `src/`.  Identical pipeline to the two
handlers above; on a successful upstream call it extracts the generated
text, applies `stripFences`, parses, and returns the value with 200;
empty extraction yields 500 "empty response", a parse failure yields
500 "invalid JSON format". -/
def handlerSan (parse : String → Option Json) (env : Env) (req : Req)
    (up : Upstream) : HResult :=
  if req.method ≠ "POST" then
    ⟨405, errObj "Method Not Allowed. Only POST requests are accepted.", false⟩
  else if !keyTruthy env.geminiApiKey then
    ⟨500, errObj "Server configuration error: API key missing.", false⟩
  else if !(optTruthy req.topic && optTruthy req.numQuestions) then
    ⟨400, errObj "Topic and number of questions are required.", false⟩
  else
    match up.jsonBody with
    | none => ⟨500, errObj internalErrMsg, true⟩
    | some geminiResult =>
      if upstreamOk up.status then
        match extractChain geminiResult with
        | .error _ => ⟨500, errObj internalErrMsg, true⟩
        | .ok content =>
            if optTruthy content then
              match parse (stripFences (jsToStringU content)) with
              | some v => ⟨200, v, true⟩
              | none => ⟨500, errObj "Invalid JSON format in Gemini response.", true⟩
            else
              ⟨500, errObj "Empty response from Gemini.", true⟩
      else
        match upstreamErrBody geminiResult "Gemini API Error" with
        | .error _ => ⟨500, errObj internalErrMsg, true⟩
        | .ok body => ⟨up.status, body, true⟩

/-! ## Concrete fixtures used in witnesses and counterexamples -/

/-- The store the fetch listener writes to, looked up in a storage. -/
def lookupStore (s : CacheStorage) (name url : String) : Option SwResponse :=
  match s.lookup name with
  | some c => cacheMatch c url
  | none => none

/-- A concrete stand-in instantiating the `JSON.parse` parameter in
witnesses: recognises two array literals, fails on everything else. -/
def parseEx : String → Option Json := fun s =>
  if s = "[]" then some (.arr []) else
  if s = "[1]" then some (.arr [.num 1]) else none

/-- The canonical shape of a successful Gemini result,
`\x7b candidates: [\x7b content: \x7b parts: [\x7b text: t \x7d] \x7d \x7d] \x7d`,
with generated text `t`. -/
def gemShape (t : String) : Json :=
  .obj [("candidates",
    .arr [.obj [("content", .obj [("parts", .arr [.obj [("text", .str t)]])])]])]

/-- A well-formed inbound request. -/
def reqOk : Req := ⟨"POST", some (.str "math"), some (.num 5)⟩

/-- An environment with the API key configured. -/
def envOk : Env := ⟨some "test-key"⟩

/-- The upstream 429 error body of the quota example:
`\x7b error: \x7b message: "quota exceeded" \x7d \x7d`. -/
def quotaBody : Json := .obj [("error", .obj [("message", .str "quota exceeded")])]

/-- An old-generation cached response. -/
def respOld : SwResponse := ⟨200, "basic", "old-body"⟩

/-- A current-generation cached response. -/
def respNew : SwResponse := ⟨200, "basic", "new-body"⟩

/-- A cache storage holding a prior-generation store (created first)
and the current store, both with an entry for the URL "u". -/
def storageTwoGen : CacheStorage :=
  [("quiz-generator-v0", [("u", respOld)]), (CACHE_NAME, [("u", respNew)])]

/-! ## Theorems -/

/-- C5: for every inbound request whose method is not POST, both
handler variants respond 405 with the method-not-allowed error, and the
outbound call to the upstream generation API is not reached. -/
theorem nonPost_rejected_405_noCall (parse : String → Option Json)
    (env : Env) (req : Req) (up : Upstream) (h : req.method ≠ "POST") :
    handlerMain parse env req up =
      ⟨405, errObj "Method Not Allowed. Only POST requests are accepted.", false⟩ ∧
    handlerAlt parse env req up =
      ⟨405, errObj "Method Not Allowed. Only POST requests are accepted.", false⟩ := by
  constructor <;> simp [handlerMain, handlerAlt, h]

/-- Witness for C5: a GET request. -/
theorem nonPost_rejected_405_noCall_witness :
    handlerMain parseEx envOk ⟨"GET", none, none⟩ ⟨200, none⟩ =
      ⟨405, errObj "Method Not Allowed. Only POST requests are accepted.", false⟩ ∧
    handlerAlt parseEx envOk ⟨"GET", none, none⟩ ⟨200, none⟩ =
      ⟨405, errObj "Method Not Allowed. Only POST requests are accepted.", false⟩ :=
  nonPost_rejected_405_noCall parseEx envOk ⟨"GET", none, none⟩ ⟨200, none⟩
    (by decide)

/-- C6: a POST request with the API key configured whose body is
missing `topic` or missing `numQuestions` is answered 400 with a
descriptive error, and the outbound call is not reached (both
variants). -/
theorem missingField_rejected_400_noCall (parse : String → Option Json)
    (env : Env) (req : Req) (up : Upstream) (hm : req.method = "POST")
    (hk : keyTruthy env.geminiApiKey = true)
    (h : req.topic = none ∨ req.numQuestions = none) :
    handlerMain parse env req up =
      ⟨400, errObj "Topic and number of questions are required in the request body.", false⟩ ∧
    handlerAlt parse env req up =
      ⟨400, errObj "Topic and number of questions are required.", false⟩ := by
  rcases h with h | h <;>
    constructor <;> simp [handlerMain, handlerAlt, hm, hk, h, optTruthy]

/-- Witness for C6: the spec's `\x7b numQuestions: 5 \x7d` example
(missing topic). -/
theorem missingField_rejected_400_noCall_witness :
    handlerMain parseEx envOk ⟨"POST", none, some (.num 5)⟩ ⟨200, none⟩ =
      ⟨400, errObj "Topic and number of questions are required in the request body.", false⟩ ∧
    handlerAlt parseEx envOk ⟨"POST", none, some (.num 5)⟩ ⟨200, none⟩ =
      ⟨400, errObj "Topic and number of questions are required.", false⟩ :=
  missingField_rejected_400_noCall parseEx envOk ⟨"POST", none, some (.num 5)⟩
    ⟨200, none⟩ rfl (by decide) (Or.inl rfl)

/-- C9: the credential check precedes body validation: a POST request
arriving with `GEMINI_API_KEY` unset is answered 500 with the
server-configuration error regardless of the body's contents (both
variants, each with its own message text), and the outbound call is not
reached. -/
theorem keyCheck_precedes_bodyValidation (parse : String → Option Json)
    (req : Req) (up : Upstream) (hm : req.method = "POST") :
    handlerMain parse ⟨none⟩ req up =
      ⟨500, errObj "Server configuration error: API key missing. Please ensure GEMINI_API_KEY is set in Vercel project settings.", false⟩ ∧
    handlerAlt parse ⟨none⟩ req up =
      ⟨500, errObj "Server configuration error: API key missing.", false⟩ := by
  constructor <;> simp [handlerMain, handlerAlt, hm, keyTruthy]

/-- Witness for C9: a POST that is *also* missing both body fields
still yields 500, not 400. -/
theorem keyCheck_precedes_bodyValidation_witness :
    handlerMain parseEx ⟨none⟩ ⟨"POST", none, none⟩ ⟨200, none⟩ =
      ⟨500, errObj "Server configuration error: API key missing. Please ensure GEMINI_API_KEY is set in Vercel project settings.", false⟩ ∧
    handlerAlt parseEx ⟨none⟩ ⟨"POST", none, none⟩ ⟨200, none⟩ =
      ⟨500, errObj "Server configuration error: API key missing.", false⟩ :=
  keyCheck_precedes_bodyValidation parseEx ⟨"POST", none, none⟩ ⟨200, none⟩ rfl

/-- C10: validation tests falsiness, not presence: a POST body carrying
`topic: ""` or `numQuestions: 0` is rejected with 400 exactly as if the
field were absent (the handler result is identical to the
absent-field result), and the outbound call is not reached. -/
theorem falsyField_rejected_like_missing (parse : String → Option Json)
    (env : Env) (up : Upstream) (tp nq : Option Json)
    (hk : keyTruthy env.geminiApiKey = true) :
    (handlerMain parse env ⟨"POST", some (.str ""), nq⟩ up =
       handlerMain parse env ⟨"POST", none, nq⟩ up ∧
     handlerMain parse env ⟨"POST", some (.str ""), nq⟩ up =
       ⟨400, errObj "Topic and number of questions are required in the request body.", false⟩ ∧
     handlerAlt parse env ⟨"POST", some (.str ""), nq⟩ up =
       handlerAlt parse env ⟨"POST", none, nq⟩ up ∧
     handlerAlt parse env ⟨"POST", some (.str ""), nq⟩ up =
       ⟨400, errObj "Topic and number of questions are required.", false⟩) ∧
    (handlerMain parse env ⟨"POST", tp, some (.num 0)⟩ up =
       handlerMain parse env ⟨"POST", tp, none⟩ up ∧
     handlerMain parse env ⟨"POST", tp, some (.num 0)⟩ up =
       ⟨400, errObj "Topic and number of questions are required in the request body.", false⟩ ∧
     handlerAlt parse env ⟨"POST", tp, some (.num 0)⟩ up =
       handlerAlt parse env ⟨"POST", tp, none⟩ up ∧
     handlerAlt parse env ⟨"POST", tp, some (.num 0)⟩ up =
       ⟨400, errObj "Topic and number of questions are required.", false⟩) := by
  refine ⟨⟨?_, ?_, ?_, ?_⟩, ⟨?_, ?_, ?_, ?_⟩⟩ <;>
    simp [handlerMain, handlerAlt, hk, optTruthy, jsTruthy]

/-- Witness for C10: `topic = ""` and `numQuestions = 0` with otherwise
valid inputs. -/
theorem falsyField_rejected_like_missing_witness :
    handlerMain parseEx envOk ⟨"POST", some (.str ""), some (.num 5)⟩ ⟨200, none⟩ =
      ⟨400, errObj "Topic and number of questions are required in the request body.", false⟩ ∧
    handlerMain parseEx envOk ⟨"POST", some (.str "math"), some (.num 0)⟩ ⟨200, none⟩ =
      ⟨400, errObj "Topic and number of questions are required in the request body.", false⟩ :=
  ⟨((falsyField_rejected_like_missing parseEx envOk ⟨200, none⟩
      (some (.str "math")) (some (.num 5)) (by decide)).1).2.1,
   ((falsyField_rejected_like_missing parseEx envOk ⟨200, none⟩
      (some (.str "math")) (some (.num 5)) (by decide)).2).2.1⟩

/-- C1: for every valid request (POST, key configured, truthy topic and
numQuestions), when the upstream call succeeds (2xx) and the extracted
generated text `t` is well-formed JSON (`parse t = some v`, `t`
nonempty), both handler variants respond 200 with body exactly the
parsed value `v`. -/
theorem validRequest_success_returns_parsed (parse : String → Option Json)
    (env : Env) (req : Req) (up : Upstream) (result : Json) (t : String)
    (v : Json) (hm : req.method = "POST")
    (hk : keyTruthy env.geminiApiKey = true)
    (htop : optTruthy req.topic = true)
    (hnum : optTruthy req.numQuestions = true)
    (hok : upstreamOk up.status = true)
    (hbody : up.jsonBody = some result)
    (hx1 : extract1 result = .text (some (.str t)))
    (hx2 : extractChain result = .ok (some (.str t)))
    (hne : t ≠ "") (hp : parse t = some v) :
    handlerMain parse env req up = ⟨200, v, true⟩ ∧
    handlerAlt parse env req up = ⟨200, v, true⟩ := by
  have hts : optTruthy (some (Json.str t)) = true := by
    simp [optTruthy, jsTruthy, hne]
  have hjs : jsToStringU (some (Json.str t)) = t := by
    simp [jsToStringU, jsToString]
  constructor <;>
    simp [handlerMain, handlerAlt, hm, hk, htop, hnum, hok, hbody, hx1, hx2,
      hts, hjs, hp]

/-- Witness for C1: the canonical Gemini shape carrying the text "[1]"
with a parse function mapping it to the array [1]. -/
theorem validRequest_success_returns_parsed_witness :
    handlerMain parseEx envOk reqOk ⟨200, some (gemShape "[1]")⟩ =
      ⟨200, .arr [.num 1], true⟩ ∧
    handlerAlt parseEx envOk reqOk ⟨200, some (gemShape "[1]")⟩ =
      ⟨200, .arr [.num 1], true⟩ :=
  validRequest_success_returns_parsed parseEx envOk reqOk
    ⟨200, some (gemShape "[1]")⟩ (gemShape "[1]") "[1]" (.arr [.num 1])
    rfl (by decide) (by simp [reqOk, optTruthy, jsTruthy]) (by decide)
    (by decide) rfl rfl rfl (by decide) rfl

/-- C4: on an upstream non-2xx response whose body parsed to a JSON
object, both handler variants respond with the upstream status code and
a body whose `error` field is the upstream-reported `error.message`
when one is present (a nonempty string), and with their generic
fallback message when it is absent. -/
theorem upstreamError_status_and_message_forwarded
    (parse : String → Option Json) (env : Env) (req : Req) (up : Upstream)
    (fs : List (String × Json)) (hm : req.method = "POST")
    (hk : keyTruthy env.geminiApiKey = true)
    (htop : optTruthy req.topic = true)
    (hnum : optTruthy req.numQuestions = true)
    (hnok : upstreamOk up.status = false)
    (hbody : up.jsonBody = some (.obj fs)) :
    (∀ s : String, optChain (fs.lookup "error") "message" = some (.str s) →
       s ≠ "" →
       handlerMain parse env req up = ⟨up.status, errObj s, true⟩ ∧
       handlerAlt parse env req up = ⟨up.status, errObj s, true⟩) ∧
    (optChain (fs.lookup "error") "message" = none →
       handlerMain parse env req up =
         ⟨up.status, errObj "Unknown Gemini API error", true⟩ ∧
       handlerAlt parse env req up =
         ⟨up.status, errObj "Gemini API Error", true⟩) := by
  constructor
  · intro s hmsg hs
    have hb : ∀ fb, upstreamErrBody (.obj fs) fb = .ok (errObj s) := by
      intro fb
      simp [upstreamErrBody, jsDot, hmsg, jsOr, jsTruthy, hs, errObj]
    constructor <;>
      simp [handlerMain, handlerAlt, hm, hk, htop, hnum, hnok, hbody, hb]
  · intro hmsg
    have hb : ∀ fb, upstreamErrBody (.obj fs) fb = .ok (errObj fb) := by
      intro fb
      simp [upstreamErrBody, jsDot, hmsg, jsOr, errObj]
    constructor <;>
      simp [handlerMain, handlerAlt, hm, hk, htop, hnum, hnok, hbody, hb]

/-- Witness for C4: the spec's example — upstream 429 with body
`\x7b error: \x7b message: "quota exceeded" \x7d \x7d` yields 429 with
body `\x7b error: "quota exceeded" \x7d`. -/
theorem upstreamError_status_and_message_forwarded_witness :
    handlerMain parseEx envOk reqOk ⟨429, some quotaBody⟩ =
      ⟨429, errObj "quota exceeded", true⟩ ∧
    handlerAlt parseEx envOk reqOk ⟨429, some quotaBody⟩ =
      ⟨429, errObj "quota exceeded", true⟩ :=
  (upstreamError_status_and_message_forwarded parseEx envOk reqOk
      ⟨429, some quotaBody⟩ [("error", .obj [("message", .str "quota exceeded")])]
      rfl (by decide) (by simp [reqOk, optTruthy, jsTruthy]) (by decide)
      (by decide) rfl).1 "quota exceeded" rfl (by decide)

/-- Counterexample to C3 as stated: when the upstream 200 response
carries the generated text ".oops", which is not valid JSON, both
handlers do return 500 — but the body is the *generic* internal-error
message of the catch-all (`JSON.parse`'s exception is caught by the
surrounding `try`), byte-identical to the body produced for an
arbitrary internal failure (here: the upstream body itself failing to
parse), so the message does not distinguish the data-quality failure.
`handlerAlt` behaves the same even for empty generated text. -/
theorem badText_message_not_distinguishing_cex :
    handlerMain parseEx envOk reqOk ⟨200, some (gemShape ".oops")⟩ =
      ⟨500, errObj internalErrMsg, true⟩ ∧
    handlerAlt parseEx envOk reqOk ⟨200, some (gemShape ".oops")⟩ =
      ⟨500, errObj internalErrMsg, true⟩ ∧
    handlerAlt parseEx envOk reqOk ⟨200, some (gemShape "")⟩ =
      ⟨500, errObj internalErrMsg, true⟩ ∧
    (handlerMain parseEx envOk reqOk ⟨200, some (gemShape ".oops")⟩).body =
      (handlerMain parseEx envOk reqOk ⟨200, none⟩).body := by
  refine ⟨?_, ?_, ?_, ?_⟩ <;>
    simp [handlerMain, handlerAlt, parseEx, envOk, reqOk, gemShape, keyTruthy,
      optTruthy, jsTruthy, upstreamOk, extract1, extractChain, jsDot, optChain,
      optChainIndex0, jsIndex0, jsLenPos, jsToStringU, jsToString,
      internalErrMsg, errObj]

/-- C3 amended: on an upstream 2xx response whose generated text is
absent or empty or not valid JSON, both handlers respond 500 and never
return the raw text as a success payload; but only `handlerMain`'s
missing-structure case carries a distinguishing message — a present
text that is empty or fails to parse yields the generic internal-error
message (the `JSON.parse` failure, resp. the thrown "empty response"
`Error`, is caught by the catch-all). -/
theorem badText_yields_500_without_leak (parse : String → Option Json)
    (env : Env) (req : Req) (up : Upstream) (result : Json)
    (hm : req.method = "POST") (hk : keyTruthy env.geminiApiKey = true)
    (htop : optTruthy req.topic = true)
    (hnum : optTruthy req.numQuestions = true)
    (hbody : up.jsonBody = some result)
    (hok : upstreamOk up.status = true) :
    (extract1 result = .noContent →
       handlerMain parse env req up =
         ⟨500, errObj "No valid content found in Gemini API response or unexpected structure.", true⟩) ∧
    (∀ t, extract1 result = .text t → parse (jsToStringU t) = none →
       handlerMain parse env req up = ⟨500, errObj internalErrMsg, true⟩) ∧
    (∀ c, extractChain result = .ok c →
       optTruthy c = false ∨ parse (jsToStringU c) = none →
       handlerAlt parse env req up = ⟨500, errObj internalErrMsg, true⟩) := by
  refine ⟨?_, ?_, ?_⟩
  · intro hx
    simp [handlerMain, hm, hk, htop, hnum, hok, hbody, hx]
  · intro t hx hp
    simp [handlerMain, hm, hk, htop, hnum, hok, hbody, hx, hp]
  · intro c hx hcase
    cases hco : optTruthy c with
    | false => simp [handlerAlt, hm, hk, htop, hnum, hok, hbody, hx, hco]
    | true =>
        rcases hcase with hc | hp
        · rw [hco] at hc; exact absurd hc (by simp)
        · simp [handlerAlt, hm, hk, htop, hnum, hok, hbody, hx, hco, hp]

/-- Witness for the amended C3: missing structure, unparsable text
".oops", and empty text "" on concrete requests. -/
theorem badText_yields_500_without_leak_witness :
    handlerMain parseEx envOk reqOk ⟨200, some (Json.obj [("x", .num 1)])⟩ =
      ⟨500, errObj "No valid content found in Gemini API response or unexpected structure.", true⟩ ∧
    handlerMain parseEx envOk reqOk ⟨299, some (gemShape ".oops")⟩ =
      ⟨500, errObj internalErrMsg, true⟩ ∧
    handlerAlt parseEx envOk reqOk ⟨200, some (gemShape "")⟩ =
      ⟨500, errObj internalErrMsg, true⟩ :=
  ⟨(badText_yields_500_without_leak parseEx envOk reqOk
      ⟨200, some (Json.obj [("x", .num 1)])⟩ (Json.obj [("x", .num 1)]) rfl
      (by decide) (by simp [reqOk, optTruthy, jsTruthy]) (by decide) rfl
      (by decide)).1 rfl,
   (badText_yields_500_without_leak parseEx envOk reqOk
      ⟨299, some (gemShape ".oops")⟩ (gemShape ".oops") rfl (by decide)
      (by simp [reqOk, optTruthy, jsTruthy]) (by decide) rfl
      (by decide)).2.1 (some (.str ".oops")) rfl
      (by simp [jsToStringU, jsToString, parseEx]),
   (badText_yields_500_without_leak parseEx envOk reqOk
      ⟨200, some (gemShape "")⟩ (gemShape "") rfl (by decide)
      (by simp [reqOk, optTruthy, jsTruthy]) (by decide) rfl
      (by decide)).2.2 (some (.str "")) rfl
      (Or.inl (by simp [optTruthy, jsTruthy]))⟩

/-- C2 (against the spec-modelled sanitizing variant `handlerSan`; the
two handlers under `src/` do not sanitize): when the upstream 200
response carries generated text wrapped in markdown ```` ```json ... ``` ````
fences, the handler strips the fences (`stripFences` recovers the inner
text) and, the inner text parsing as JSON, responds 200 with the parsed
value. -/
theorem san_fenced_text_parsed_returned (parse : String → Option Json)
    (env : Env) (req : Req) (up : Upstream) (result : Json)
    (inner : String) (v : Json) (hm : req.method = "POST")
    (hk : keyTruthy env.geminiApiKey = true)
    (htop : optTruthy req.topic = true)
    (hnum : optTruthy req.numQuestions = true)
    (hok : upstreamOk up.status = true)
    (hbody : up.jsonBody = some result)
    (hx : extractChain result =
      .ok (some (.str ("```json\n" ++ inner ++ "\n```"))))
    (hstrip : stripFences ("```json\n" ++ inner ++ "\n```") = inner)
    (hp : parse inner = some v) :
    handlerSan parse env req up = ⟨200, v, true⟩ := by
  have hne : ("```json\n" ++ inner ++ "\n```" : String) ≠ "" := by
    intro h
    have hlen := congrArg String.length h
    rw [String.length_append, String.length_append] at hlen
    have h8 : ("```json\n" : String).length = 8 := rfl
    have h4 : ("\n```" : String).length = 4 := rfl
    have h0 : ("" : String).length = 0 := rfl
    omega
  have hts : optTruthy (some (Json.str ("```json\n" ++ inner ++ "\n```"))) =
      true := by
    simp [optTruthy, jsTruthy, hne]
  have hjs : jsToStringU (some (Json.str ("```json\n" ++ inner ++ "\n```"))) =
      "```json\n" ++ inner ++ "\n```" := by
    simp [jsToStringU, jsToString]
  simp [handlerSan, hm, hk, htop, hnum, hok, hbody, hx, hts, hjs, hstrip, hp]

/-- Witness for C2: the fenced text is exactly
`"```json\n[1]\n```"` and the inner text "[1]" parses to the array [1]. -/
theorem san_fenced_text_parsed_returned_witness :
    handlerSan parseEx envOk reqOk ⟨200, some (gemShape "```json\n[1]\n```")⟩ =
      ⟨200, .arr [.num 1], true⟩ :=
  san_fenced_text_parsed_returned parseEx envOk reqOk
    ⟨200, some (gemShape "```json\n[1]\n```")⟩ (gemShape "```json\n[1]\n```")
    "[1]" (.arr [.num 1]) rfl (by decide)
    (by simp [reqOk, optTruthy, jsTruthy]) (by decide) (by decide) rfl
    rfl rfl rfl

/-- After `cache.put`, looking the request up in that cache finds the
stored response. -/
theorem cacheMatch_cachePut (c : SwCache) (url : String) (r : SwResponse) :
    cacheMatch (cachePut c url r) url = some r := by
  induction c with
  | nil => simp [cachePut, cacheMatch, List.lookup]
  | cons p c ih =>
      by_cases h : p.1 = url
      · simpa [cachePut, List.filter, h] using ih
      · have hb : (url == p.1) = false := beq_eq_false_iff_ne.mpr fun he => h he.symm
        simpa [cachePut, cacheMatch, List.lookup, List.filter, h, hb] using ih

/-- After `caches.open(name)` + `cache.put`, the named store maps the
request to the stored response. -/
theorem lookupStore_storagePut (s : CacheStorage) (name url : String)
    (r : SwResponse) :
    lookupStore (storagePut s name url r) name url = some r := by
  unfold storagePut
  by_cases hs : (s.lookup name).isSome
  · rw [if_pos hs]
    induction s with
    | nil => simp at hs
    | cons p s ih =>
        obtain ⟨k, c⟩ := p
        by_cases h : k = name
        · subst h
          simp [lookupStore, updateStore, List.lookup, cacheMatch_cachePut]
        · have hb : (name == k) = false := beq_eq_false_iff_ne.mpr fun he => h he.symm
          have hs' : (s.lookup name).isSome := by
            simpa [List.lookup, hb] using hs
          have hres := ih hs'
          simp only [updateStore, if_neg h, lookupStore, List.lookup, hb] at hres ⊢
          exact hres
  · rw [if_neg hs]
    induction s with
    | nil => simp [lookupStore, List.lookup, cacheMatch_cachePut]
    | cons p s ih =>
        obtain ⟨k, c⟩ := p
        have h : k ≠ name := by
          intro h
          subst h
          simp [List.lookup] at hs
        have hb : (name == k) = false := beq_eq_false_iff_ne.mpr fun he => h he.symm
        have hs' : ¬(s.lookup name).isSome := by
          intro hx
          exact hs (by simpa [List.lookup, hb] using hx)
        have hres := ih hs'
        simp only [lookupStore, List.lookup, List.cons_append, hb] at hres ⊢
        exact hres

/-- Counterexample to C7 as stated: a storage in which a
prior-generation store (created first) and the current store both hold
an entry for "u".  The current store's entry is `respNew`, yet the
fetch listener returns `respOld` — `caches.match` searches every store
in creation order, not the current generation's store. -/
theorem fetch_ignores_current_store_cex :
    lookupStore storageTwoGen CACHE_NAME "u" = some respNew ∧
    handleFetch storageTwoGen "u" ⟨200, "basic", "net-body"⟩ =
      ⟨respOld, storageTwoGen, false⟩ ∧
    respOld ≠ respNew :=
  ⟨rfl, rfl, by decide⟩

/-- C7 amended: on every intercepted fetch, if *any* store has a
matching entry the first match (stores searched in creation order) is
returned verbatim with no network fetch; otherwise the network is
fetched and, exactly when the response is valid (status 200, type
"basic"), a clone is stored under the request's identity in the current
generation's store and the original is returned, while invalid
responses are returned without any cache modification. -/
theorem fetch_readthrough_populate (s : CacheStorage) (url : String)
    (net : SwResponse) :
    (∀ r, cachesMatch s url = some r → handleFetch s url net = ⟨r, s, false⟩) ∧
    (cachesMatch s url = none → swValid net = true →
       handleFetch s url net = ⟨net, storagePut s CACHE_NAME url net, true⟩ ∧
       lookupStore (handleFetch s url net).storage CACHE_NAME url = some net) ∧
    (cachesMatch s url = none → swValid net = false →
       handleFetch s url net = ⟨net, s, true⟩) := by
  refine ⟨?_, ?_, ?_⟩
  · intro r h
    simp [handleFetch, h]
  · intro h hv
    constructor
    · simp [handleFetch, h, hv]
    · simp [handleFetch, h, hv, lookupStore_storagePut]
  · intro h hv
    simp [handleFetch, h, hv]

/-- Witness for the amended C7: a cache hit, a miss with a valid
network response (stored and returned), and a miss with a 404 (returned
uncached). -/
theorem fetch_readthrough_populate_witness :
    handleFetch [(CACHE_NAME, [("u", respNew)])] "u" respOld =
      ⟨respNew, [(CACHE_NAME, [("u", respNew)])], false⟩ ∧
    handleFetch [(CACHE_NAME, [])] "v" respNew =
      ⟨respNew, storagePut [(CACHE_NAME, [])] CACHE_NAME "v" respNew, true⟩ ∧
    handleFetch [(CACHE_NAME, [])] "v" ⟨404, "basic", "nf"⟩ =
      ⟨⟨404, "basic", "nf"⟩, [(CACHE_NAME, [])], true⟩ :=
  ⟨(fetch_readthrough_populate [(CACHE_NAME, [("u", respNew)])] "u" respOld).1
      respNew rfl,
   ((fetch_readthrough_populate [(CACHE_NAME, [])] "v" respNew).2.1
      rfl (by decide)).1,
   (fetch_readthrough_populate [(CACHE_NAME, [])] "v" ⟨404, "basic", "nf"⟩).2.2
      rfl (by decide)⟩

/-- C8: after the activate handler runs, every store still enumerable
is the current generation's (no prior-generation store remains), and
the current generation's store itself is not deleted. -/
theorem activate_deletes_old_generations (s : CacheStorage) (name : String)
    (c : SwCache) :
    ((name, c) ∈ handleActivate s → name = CACHE_NAME) ∧
    ((name, c) ∈ s → name = CACHE_NAME → (name, c) ∈ handleActivate s) := by
  constructor
  · intro h
    have hf := (List.mem_filter.mp h).2
    simpa using hf
  · intro hmem heq
    exact List.mem_filter.mpr ⟨hmem, by simp [heq]⟩

/-- Witness for C8: activating over `storageTwoGen` keeps the current
store and the old generation is gone (its membership would imply the
impossible name equation). -/
theorem activate_deletes_old_generations_witness :
    (CACHE_NAME, [("u", respNew)]) ∈ handleActivate storageTwoGen ∧
    CACHE_NAME = CACHE_NAME :=
  ⟨(activate_deletes_old_generations storageTwoGen CACHE_NAME
      [("u", respNew)]).2 (by decide) rfl,
   (activate_deletes_old_generations storageTwoGen CACHE_NAME
      [("u", respNew)]).1
      ((activate_deletes_old_generations storageTwoGen CACHE_NAME
          [("u", respNew)]).2 (by decide) rfl)⟩
